import Mathlib

/-!
Verification of the holder admin protocol module
(acapy_plugin_toolbox/holder/v0_1.py) against its design spec.

The module is embedded shallowly: each Python handler becomes a pure Lean
function from the decoded admin message and the relevant stores and
collaborator operations to the list of observable actions it performs
(collaborator invocations, outbound DIDComm sends, admin replies, admin
broadcast notifications).  Collaborator operations that live outside the
sources (the protocol engines, the pagination helper, the util helpers
ExceptionReporter / get_connection / send_to_admins) are modelled from the
spec where noted.
-/

namespace HolderV01

/-! ## Records

CredExRecord and PresExRecord come from the aries_cloudagent collaborator.
Only the fields the holder module reads are embedded.  State constants are
the distinct strings used by aries_cloudagent; for the proofs only their
distinctness and identity matter. -/

structure CredExRecord where
  credential_exchange_id : String
  connection_id : String
  state : String
  deriving Repr, DecidableEq

def CredExRecord.STATE_PROPOSAL_SENT : String := "proposal_sent"

def CredExRecord.STATE_PROPOSAL_RECEIVED : String := "proposal_received"

def CredExRecord.STATE_OFFER_SENT : String := "offer_sent"

def CredExRecord.STATE_OFFER_RECEIVED : String := "offer_received"

def CredExRecord.STATE_REQUEST_SENT : String := "request_sent"

def CredExRecord.STATE_REQUEST_RECEIVED : String := "request_received"

def CredExRecord.STATE_ISSUED : String := "credential_issued"

def CredExRecord.STATE_CREDENTIAL_RECEIVED : String := "credential_received"

def CredExRecord.STATE_ACKED : String := "credential_acked"

structure PresExRecord where
  presentation_exchange_id : String
  connection_id : String
  state : String
  role : String
  verified : Option String
  presentation_request : String
  deriving Repr, DecidableEq

def PresExRecord.STATE_REQUEST_RECEIVED : String := "request_received"

def PresExRecord.ROLE_PROVER : String := "prover"

/-- Connection record from the connection store collaborator. -/
structure ConnRecord where
  connection_id : String
  is_ready : Bool
  my_did : String
  deriving Repr, DecidableEq

/-- Retrieve a record by identifier: first record whose id matches, as the
record store retrieve_by_id, with none for StorageNotFoundError. -/
def retrieveById (key : α → String) (store : List α) (ident : String) : Option α :=
  store.find? (fun r => key r = ident)

def CredExRecord.retrieve_by_id (store : List CredExRecord) (ident : String) :
    Option CredExRecord :=
  retrieveById CredExRecord.credential_exchange_id store ident

def PresExRecord.retrieve_by_id (store : List PresExRecord) (ident : String) :
    Option PresExRecord :=
  retrieveById PresExRecord.presentation_exchange_id store ident

def ConnRecord.retrieve_by_id (store : List ConnRecord) (ident : String) :
    Option ConnRecord :=
  retrieveById ConnRecord.connection_id store ident

/-! ## Pagination -/

/-- Page decorator: the (count, offset) pair attached to a result slice. -/
structure Page where
  count_ : Int
  offset : Int
  deriving Repr, DecidableEq

/-- Paginate decorator: the (limit, offset) cursor sent by the admin client. -/
structure Paginate where
  limit : Int
  offset : Int
  deriving Repr, DecidableEq

/-- Modelled from the spec: the pagination utility
(acapy_plugin_toolbox/decorators/pagination.py is not among the sources).
Contract: apply(records, cursor) -> (slice, page); deterministic; offset
clamps to len(records) so an out-of-range offset yields an empty slice,
not an error; limit of zero or negative is rejected with InvalidArgument;
page carries the count of returned records and the requested offset. -/
def Paginate.apply (p : Paginate) (records : List α) :
    Except String (List α × Page) :=
  if p.limit ≤ 0 then
    .error "InvalidArgument"
  else
    let start := min p.offset.toNat records.length
    let slice := (records.drop start).take p.limit.toNat
    .ok (slice, { count_ := slice.length, offset := p.offset })

/-! ## Messages

Each admin message kind carries the payload the Python class serializes.
Record payloads are embedded as the records themselves (serialization and
re-parsing is owned by the messaging framework collaborator and is the
identity on the embedded fields). -/

/-- Matching credentials returned by the holder credential store are opaque
at this layer. -/
def Credential := String

instance : DecidableEq Credential := inferInstanceAs (DecidableEq String)

instance : Repr Credential := inferInstanceAs (Repr String)

inductive MsgBody where
  | credList (results : List CredExRecord) (page : Page)
  | presList (results : List PresExRecord) (page : Page)
  | credExchange (record : CredExRecord)
  | credOfferRecv (record : CredExRecord)
  | credRequestSent (record : CredExRecord)
  | credReceived (record : CredExRecord)
  | presExchange (record : PresExRecord)
  | presRequestReceived (record : PresExRecord)
      (matching_credentials : List Credential) (page : Option Page)
  | presSent (record : PresExRecord)
  | problemReport (explain_ltxt : String) (who_retries : String)
  | credentialProposal (comment : Option String) (cred_def_id : String)
  | presentationProposal (comment : Option String)
  | engineMessage (tag : String)
  deriving Repr, DecidableEq

/-- An outbound message: a body plus the optional thread decorator.
assign_thread_from sets the thread; a freshly constructed message has
none. -/
structure Message where
  body : MsgBody
  thread : Option String
  deriving Repr, DecidableEq

/-- Build a message with no thread decorator, as Python construction does. -/
def MsgBody.msg (body : MsgBody) : Message := { body := body, thread := none }

/-- assign_thread_from: correlate an outbound message to the triggering
request (whose thread identifier is threadId below). -/
def Message.assign_thread_from (m : Message) (threadId : String) : Message :=
  { m with thread := some threadId }

/-- Observable actions a handler performs, in order. -/
inductive Action where
  | createProposal (connection_id : String) (comment : Option String)
      (cred_def_id : String)
  | createRequest (record : CredExRecord) (did : String)
  | createPresentation (record : PresExRecord)
  | send (message : Message) (connection_id : String)
  | sendReply (message : Message)
  | sendToAdmins (message : Message)
  deriving Repr, DecidableEq

/-- Predicate: the action dispatches a message to a remote party. -/
def Action.isSend : Action → Bool
  | .send _ _ => true
  | _ => false

/-- Predicate: the action invokes the presentation-construction operation
of the protocol engine (the only operation of this layer that mutates a
presentation exchange record, per the spec data model). -/
def Action.isCreatePresentation : Action → Bool
  | .createPresentation _ => true
  | _ => false

/-! ## Collaborator helpers modelled from the spec -/

/-- Modelled from the spec: util.get_connection (util.py is not among the
sources). Per the spec connection-store interface and error taxonomy, it
retrieves the connection and fails with InvalidConnection when the
connection is missing or not ready. -/
def get_connection (conns : List ConnRecord) (connection_id : String) :
    Except String ConnRecord :=
  match ConnRecord.retrieve_by_id conns connection_id with
  | none => .error "Connection not found."
  | some conn_record =>
      if conn_record.is_ready then .ok conn_record
      else .error "Connection is not ready."

/-- Modelled from the spec: util.ExceptionReporter (util.py is not among
the sources). Per the spec propagation policy, an error raised inside the
guarded block is converted into a thread-correlated Problem Report sent
back to the requester and the handler aborts. -/
def reportError (threadId : String) (explain : String) : List Action :=
  [Action.sendReply
    (((MsgBody.problemReport explain "none").msg).assign_thread_from threadId)]

/-- Modelled from the spec: util.send_to_admins (util.py is not among the
sources). Per the spec delivery fan-out, every currently connected admin
session receives a copy of the message. -/
def send_to_admins (sessions : List String) (message : Message) :
    List (String × Message) :=
  sessions.map (fun s => (s, message))

/-! ## Admin command handlers

Each inbound command is a structure holding the decoded fields the handler
reads plus threadId, the thread identifier of the triggering request that
assign_thread_from copies.  Payloads the layer merely forwards (credential
previews, presentation previews, requested-credential maps) are left
opaque.  Handlers are written at the admin-authorized boundary: the
admin_only guard drops unauthorized messages before any handler runs. -/

structure CredGetList where
  threadId : String
  paginate : Paginate
  states : Option (List String)
  deriving Repr, DecidableEq

/-- Handler of credentials-get-list (source lines 130 to 147): query the
credential exchange store, filter by states when the states field is
truthy, paginate, reply with a credentials-list envelope. -/
def CredGetList.handle (msg : CredGetList) (store : List CredExRecord) :
    Except String (List Action) :=
  let credentials := store
  let credentials :=
    match msg.states with
    | some ss =>
        if ss.isEmpty then credentials
        else credentials.filter (fun c => ss.contains c.state)
    | none => credentials
  match msg.paginate.apply credentials with
  | .error e => .error e
  | .ok (credentials, page) =>
      .ok [Action.sendReply (MsgBody.credList credentials page).msg]

structure PresGetList where
  threadId : String
  connection_id : Option String
  verified : Option String
  paginate : Paginate
  deriving Repr, DecidableEq

/-- Record-store query with attribute-equality post-filters, as used by
presentations-get-list: only the filters whose value is present apply. -/
def PresExRecord.query (store : List PresExRecord) (role : Option String)
    (connection_id : Option String) (verified : Option String) :
    List PresExRecord :=
  store.filter (fun r =>
    (match role with | some v => r.role == v | none => true) &&
    (match connection_id with | some v => r.connection_id == v | none => true) &&
    (match verified with | some v => r.verified == some v | none => true))

/-- Handler of presentations-get-list (source lines 347 to 367): query
prover-role presentation exchange records with the optional connection and
verified post-filters, paginate, reply with a presentations-list
envelope. -/
def PresGetList.handle (msg : PresGetList) (store : List PresExRecord) :
    Except String (List Action) :=
  let records :=
    PresExRecord.query store (some PresExRecord.ROLE_PROVER)
      msg.connection_id msg.verified
  match msg.paginate.apply records with
  | .error e => .error e
  | .ok (records, page) =>
      .ok [Action.sendReply (MsgBody.presList records page).msg]

structure SendCredProposal where
  threadId : String
  connection_id : String
  cred_def_id : String
  comment : Option String
  deriving Repr, DecidableEq

/-- Handler of send-credential-proposal (source lines 183 to 234): a
missing connection yields a thread-correlated Problem Report with
who_retries none; a connection that is not ready likewise; otherwise the
proposal record is created through the credential manager, the proposal
message is dispatched on the connection, and a thread-correlated
credential-exchange reply is sent. create_proposal is the protocol-engine
collaborator returning the created record. -/
def SendCredProposal.handle (msg : SendCredProposal) (conns : List ConnRecord)
    (create_proposal : String → Option String → String → CredExRecord) :
    List Action :=
  match ConnRecord.retrieve_by_id conns msg.connection_id with
  | none =>
      [Action.sendReply
        (((MsgBody.problemReport "Connection not found." "none").msg).assign_thread_from
          msg.threadId)]
  | some conn_record =>
      if !conn_record.is_ready then
        [Action.sendReply
          (((MsgBody.problemReport "Connection invalid." "none").msg).assign_thread_from
            msg.threadId)]
      else
        let record := create_proposal msg.connection_id msg.comment msg.cred_def_id
        [Action.createProposal msg.connection_id msg.comment msg.cred_def_id,
         Action.send (MsgBody.credentialProposal msg.comment msg.cred_def_id).msg
           msg.connection_id,
         Action.sendReply
           (((MsgBody.credExchange record).msg).assign_thread_from msg.threadId)]

structure CredOfferAccept where
  threadId : String
  credential_exchange_id : String
  deriving Repr, DecidableEq

/-- Handler of credential-offer-accept (source lines 270 to 300): retrieve
the referenced credential exchange record (a storage miss is caught by the
ExceptionReporter around the block, yielding a thread-correlated Problem
Report and aborting), retrieve the connection with get_connection (whose
InvalidConnection is NOT in the reporter tuple of this handler, so it
propagates uncaught), invoke the request-creation operation of the
protocol engine, dispatch the returned credential request message on the
connection of the record, and reply with credential-request-sent.  The
source constructs that reply without assign_thread_from, so its thread
decorator stays empty.  No state precondition is checked on the record. -/
def CredOfferAccept.handle (msg : CredOfferAccept)
    (credStore : List CredExRecord) (conns : List ConnRecord)
    (create_request : CredExRecord → String → CredExRecord × Message) :
    Except String (List Action) :=
  match CredExRecord.retrieve_by_id credStore msg.credential_exchange_id with
  | none => .ok (reportError msg.threadId "Record not found")
  | some cred_ex_record =>
      match get_connection conns cred_ex_record.connection_id with
      | .error e => .error e
      | .ok connection_record =>
          let result := create_request cred_ex_record connection_record.my_did
          .ok [Action.createRequest cred_ex_record connection_record.my_did,
               Action.send result.2 cred_ex_record.connection_id,
               Action.sendReply (MsgBody.credRequestSent result.1).msg]

structure SendPresProposal where
  threadId : String
  connection_id : String
  comment : Option String
  auto_present : Bool
  deriving Repr, DecidableEq

/-- Handler of send-presentation-proposal (source lines 409 to 442): an
invalid connection yields a thread-correlated Problem Report via the
ExceptionReporter; otherwise auto_present is resolved from the explicit
flag or the debug setting, the exchange record is created for the
proposal, the proposal message is dispatched on the connection, and a
thread-correlated presentation-exchange reply is sent. -/
def SendPresProposal.handle (msg : SendPresProposal) (conns : List ConnRecord)
    (debug_auto_respond : Bool)
    (create_exchange_for_proposal : String → Bool → PresExRecord) :
    List Action :=
  match get_connection conns msg.connection_id with
  | .error e => reportError msg.threadId e
  | .ok _ =>
      let auto_present := msg.auto_present || debug_auto_respond
      let record := create_exchange_for_proposal msg.connection_id auto_present
      [Action.send (MsgBody.presentationProposal msg.comment).msg msg.connection_id,
       Action.sendReply
         (((MsgBody.presExchange record).msg).assign_thread_from msg.threadId)]

structure PresRequestApprove where
  threadId : String
  presentation_exchange_id : String
  comment : Option String
  deriving Repr, DecidableEq

/-- Record retrieval with state validation for presentation-request-approve
(source lines 544 to 564): a storage miss or any state other than
request-received raises InvalidPresentationExchange. -/
def PresRequestApprove.get_pres_ex_record (store : List PresExRecord)
    (pres_ex_id : String) : Except String PresExRecord :=
  match PresExRecord.retrieve_by_id store pres_ex_id with
  | none => .error "Presentation exchange ID not found"
  | some pres_ex_record =>
      if pres_ex_record.state ≠ PresExRecord.STATE_REQUEST_RECEIVED then
        .error "Presentation must be in request received state"
      else .ok pres_ex_record

/-- Handler of presentation-request-approve (source lines 566 to 611):
get_pres_ex_record under an ExceptionReporter for
InvalidPresentationExchange, get_connection under an ExceptionReporter for
InvalidConnection, then the presentation-construction operation of the
protocol engine under a reporter for engine errors; on success the
presentation is dispatched on the connection and a thread-correlated
presentation-sent reply is sent. create_presentation is the collaborator,
which may fail. -/
def PresRequestApprove.handle (msg : PresRequestApprove)
    (presStore : List PresExRecord) (conns : List ConnRecord)
    (create_presentation :
      PresExRecord → Option String → Except String (PresExRecord × Message)) :
    List Action :=
  match PresRequestApprove.get_pres_ex_record presStore
      msg.presentation_exchange_id with
  | .error e => reportError msg.threadId e
  | .ok pres_ex_record =>
      match get_connection conns pres_ex_record.connection_id with
      | .error e => reportError msg.threadId e
      | .ok conn_record =>
          match create_presentation pres_ex_record msg.comment with
          | .error e =>
              Action.createPresentation pres_ex_record :: reportError msg.threadId e
          | .ok result =>
              [Action.createPresentation pres_ex_record,
               Action.send result.2 conn_record.connection_id,
               Action.sendReply
                 (((MsgBody.presSent result.1).msg).assign_thread_from msg.threadId)]

/-! ## Event bridge -/

/-- Handler of credential exchange lifecycle events (source lines 667 to
693): only the offer-received and credential-received states are forwarded
to admins, as credential-offer-received and credential-received
notifications; every other state returns without sending.  The source sets
the message in two successive equality tests over distinct state constants,
which this case split reproduces. -/
def issue_credential_event_handler (record : CredExRecord) : List Action :=
  if record.state = CredExRecord.STATE_OFFER_RECEIVED then
    [Action.sendToAdmins (MsgBody.credOfferRecv record).msg]
  else if record.state = CredExRecord.STATE_CREDENTIAL_RECEIVED then
    [Action.sendToAdmins (MsgBody.credReceived record).msg]
  else []

def PresRequestReceived.DEFAULT_COUNT : Nat := 10

/-- The presentation-request-received notification under construction:
record, matching credentials (initially empty) and page (initially
absent), as the PresRequestReceived initializer sets them. -/
structure PresRequestReceivedMsg where
  record : PresExRecord
  matching_credentials : List Credential
  page : Option Page
  deriving Repr, DecidableEq

/-- Enrichment step of the notification (source lines 472 to 481): query
the holder credential store for credentials matching the embedded proof
request, from start 0 with count DEFAULT_COUNT, then set the page to
Page(count DEFAULT_COUNT, offset DEFAULT_COUNT). holder_get stands for
get_credentials_for_presentation_request_by_referent of the store, applied
to the presentation request, the start index and the count. -/
def PresRequestReceived.retrieve_matching_credentials
    (holder_get : String → Nat → Nat → List Credential)
    (m : PresRequestReceivedMsg) : PresRequestReceivedMsg :=
  { m with
    matching_credentials :=
      holder_get m.record.presentation_request 0 PresRequestReceived.DEFAULT_COUNT,
    page := some { count_ := (PresRequestReceived.DEFAULT_COUNT : Int),
                   offset := (PresRequestReceived.DEFAULT_COUNT : Int) } }

/-- Handler of presentation exchange lifecycle events (source lines 696 to
707): only the request-received state is forwarded; the notification is
enriched with the matching credentials before being sent to admins. -/
def present_proof_event_handler (record : PresExRecord)
    (holder_get : String → Nat → Nat → List Credential) : List Action :=
  if record.state = PresExRecord.STATE_REQUEST_RECEIVED then
    let message : PresRequestReceivedMsg :=
      { record := record, matching_credentials := [], page := none }
    let message := PresRequestReceived.retrieve_matching_credentials holder_get message
    [Action.sendToAdmins
      (MsgBody.presRequestReceived message.record message.matching_credentials
        message.page).msg]
  else []

/-! ## Message type registry -/

def PROTOCOL : String := "did:sov:BzCbsNYhMrjHiqZDTUASHg;spec/admin-holder/0.1"

def moduleName : String := "acapy_plugin_toolbox.holder.v0_1"

def CredGetList.message_type : String := "credentials-get-list"

def CredList.message_type : String := "credentials-list"

def SendCredProposal.message_type : String := "send-credential-proposal"

def CredExchange.message_type : String := "credential-exchange"

def CredOfferRecv.message_type : String := "credential-offer-received"

def CredOfferAccept.message_type : String := "credential-offer-accept"

def CredRequestSent.message_type : String := "credential-request-sent"

def CredReceived.message_type : String := "credential-received"

def PresGetList.message_type : String := "presentations-get-list"

def PresList.message_type : String := "presentations-list"

def SendPresProposal.message_type : String := "send-presentation-proposal"

def PresExchange.message_type : String := "presentation-exchange"

def PresRequestReceived.message_type : String := "presentation-request-received"

def PresRequestApprove.message_type : String := "presentation-request-approve"

def PresSent.message_type : String := "presentation-sent"

/-- Registered type string: the message type under the protocol namespace
and version, as the registration decorator qualifies it. -/
def qualified (t : String) : String := PROTOCOL ++ "/" ++ t

/-- The registry dictionary MESSAGE_TYPES (source lines 626 to 643): one
entry per class in the comprehension list, mapping the qualified message
type to the module-qualified class name, in source order. -/
def MESSAGE_TYPES : List (String × String) :=
  [ (qualified CredGetList.message_type, moduleName ++ ".CredGetList"),
    (qualified CredList.message_type, moduleName ++ ".CredList"),
    (qualified CredOfferAccept.message_type, moduleName ++ ".CredOfferAccept"),
    (qualified CredOfferRecv.message_type, moduleName ++ ".CredOfferRecv"),
    (qualified CredRequestSent.message_type, moduleName ++ ".CredRequestSent"),
    (qualified CredReceived.message_type, moduleName ++ ".CredReceived"),
    (qualified SendCredProposal.message_type, moduleName ++ ".SendCredProposal"),
    (qualified CredExchange.message_type, moduleName ++ ".CredExchange"),
    (qualified PresGetList.message_type, moduleName ++ ".PresGetList"),
    (qualified PresList.message_type, moduleName ++ ".PresList"),
    (qualified PresRequestApprove.message_type, moduleName ++ ".PresRequestApprove"),
    (qualified SendPresProposal.message_type, moduleName ++ ".SendPresProposal"),
    (qualified PresExchange.message_type, moduleName ++ ".PresExchange") ]

/-- The fifteen message type names of the external-interface section. -/
def familyTypeNames : List String :=
  [ CredGetList.message_type, CredList.message_type,
    SendCredProposal.message_type, CredExchange.message_type,
    CredOfferRecv.message_type, CredOfferAccept.message_type,
    CredRequestSent.message_type, CredReceived.message_type,
    PresGetList.message_type, PresList.message_type,
    SendPresProposal.message_type, PresExchange.message_type,
    PresRequestReceived.message_type, PresRequestApprove.message_type,
    PresSent.message_type ]

/-! ## Helper lemmas -/

/-- With a positive limit, apply returns the drop-take window and a page
carrying the slice length and the requested offset. -/
theorem Paginate.apply_pos (p : Paginate) (records : List α) (h : 0 < p.limit) :
    p.apply records =
      Except.ok
        ((records.drop (min p.offset.toNat records.length)).take p.limit.toNat,
         { count_ :=
             (((records.drop (min p.offset.toNat records.length)).take
               p.limit.toNat).length : Int),
           offset := p.offset }) := by
  unfold Paginate.apply
  rw [if_neg (not_le.mpr h)]

/-! ## Claim theorems -/

/-- C3: for every pagination request with limit L greater than 0 and offset
O at least 0 applied to a list of N records, apply succeeds (never errors,
even out of range), the returned slice has length max 0 (min L (N - O)),
the returned page has offset O, and an out-of-range offset yields the empty
slice. Determinism given the same ordering and cursor is definitional,
apply being a pure function of its two arguments. The pagination utility
is modelled from the spec, its module not being among the sources. -/
theorem pagination_window (p : Paginate) (records : List α)
    (hL : 0 < p.limit) (hO : 0 ≤ p.offset) :
    p.apply records =
      Except.ok
        ((records.drop (min p.offset.toNat records.length)).take p.limit.toNat,
         { count_ :=
             (((records.drop (min p.offset.toNat records.length)).take
               p.limit.toNat).length : Int),
           offset := p.offset }) ∧
    ((((records.drop (min p.offset.toNat records.length)).take
        p.limit.toNat).length : Int)
      = max 0 (min p.limit ((records.length : Int) - p.offset))) ∧
    ((records.length : Int) ≤ p.offset →
      (records.drop (min p.offset.toNat records.length)).take p.limit.toNat
        = ([] : List α)) := by
  refine ⟨Paginate.apply_pos p records hL, ?_, ?_⟩
  · rw [List.length_take, List.length_drop]
    omega
  · intro hout
    have hmin : min p.offset.toNat records.length = records.length := by omega
    rw [hmin, List.drop_length, List.take_nil]

/-- C3 witness: limit 2, offset 1 over three records yields the two-record
slice with page offset 1. -/
theorem pagination_window_witness :
    (Paginate.mk 2 1).apply [10, 20, 30] =
      Except.ok ([20, 30], { count_ := 2, offset := 1 }) :=
  (pagination_window ⟨2, 1⟩ [10, 20, 30] (by decide) (by decide)).1

/-- C1: a presentation-request-approve command whose referenced record is
missing or is not exactly in state request-received makes the handler fail
with InvalidPresentationExchange, converted to a Problem Report correlated
to the thread of the request; the full action list is that single reply, so
no presentation message is dispatched and the presentation-construction
operation (the only record-mutating operation of this layer) is never
invoked. -/
theorem pres_request_approve_invalid_record (msg : PresRequestApprove)
    (presStore : List PresExRecord) (conns : List ConnRecord)
    (create_presentation :
      PresExRecord → Option String → Except String (PresExRecord × Message))
    (h : PresExRecord.retrieve_by_id presStore msg.presentation_exchange_id = none ∨
      ∃ r, PresExRecord.retrieve_by_id presStore msg.presentation_exchange_id = some r ∧
        r.state ≠ PresExRecord.STATE_REQUEST_RECEIVED) :
    (PresRequestApprove.handle msg presStore conns create_presentation =
        [Action.sendReply
          { body := MsgBody.problemReport "Presentation exchange ID not found" "none",
            thread := some msg.threadId }] ∨
     PresRequestApprove.handle msg presStore conns create_presentation =
        [Action.sendReply
          { body := MsgBody.problemReport
              "Presentation must be in request received state" "none",
            thread := some msg.threadId }]) ∧
    (PresRequestApprove.handle msg presStore conns create_presentation).all
      (fun a => !a.isSend) = true ∧
    (PresRequestApprove.handle msg presStore conns create_presentation).all
      (fun a => !a.isCreatePresentation) = true := by
  rcases h with h | ⟨r, hr, hs⟩
  · have hrec : PresRequestApprove.get_pres_ex_record presStore
        msg.presentation_exchange_id = .error "Presentation exchange ID not found" := by
      unfold PresRequestApprove.get_pres_ex_record
      rw [h]
    refine ⟨Or.inl ?_, ?_, ?_⟩ <;>
      simp [PresRequestApprove.handle, hrec, reportError, MsgBody.msg,
        Message.assign_thread_from, Action.isSend, Action.isCreatePresentation]
  · have hrec : PresRequestApprove.get_pres_ex_record presStore
        msg.presentation_exchange_id =
          .error "Presentation must be in request received state" := by
      unfold PresRequestApprove.get_pres_ex_record
      rw [hr]
      exact if_pos hs
    refine ⟨Or.inr ?_, ?_, ?_⟩ <;>
      simp [PresRequestApprove.handle, hrec, reportError, MsgBody.msg,
        Message.assign_thread_from, Action.isSend, Action.isCreatePresentation]

/-- Concrete presentation exchange record in state proposal_sent. -/
def exPresProposalSent : PresExRecord :=
  { presentation_exchange_id := "pres-1", connection_id := "conn-1",
    state := "proposal_sent", role := "prover", verified := none,
    presentation_request := "proof-req-1" }

/-- C1 witness: approving a record that sits in proposal_sent state yields
exactly one thread-correlated Problem Report and nothing else. -/
theorem pres_request_approve_invalid_record_witness :
    (PresRequestApprove.handle ⟨"thid-1", "pres-1", none⟩ [exPresProposalSent] []
        (fun r _ => Except.ok (r, (MsgBody.engineMessage "presentation").msg)) =
      [Action.sendReply
        { body := MsgBody.problemReport "Presentation exchange ID not found" "none",
          thread := some "thid-1" }] ∨
     PresRequestApprove.handle ⟨"thid-1", "pres-1", none⟩ [exPresProposalSent] []
        (fun r _ => Except.ok (r, (MsgBody.engineMessage "presentation").msg)) =
      [Action.sendReply
        { body := MsgBody.problemReport
            "Presentation must be in request received state" "none",
          thread := some "thid-1" }]) ∧
    (PresRequestApprove.handle ⟨"thid-1", "pres-1", none⟩ [exPresProposalSent] []
        (fun r _ => Except.ok (r, (MsgBody.engineMessage "presentation").msg))).all
      (fun a => !a.isSend) = true ∧
    (PresRequestApprove.handle ⟨"thid-1", "pres-1", none⟩ [exPresProposalSent] []
        (fun r _ => Except.ok (r, (MsgBody.engineMessage "presentation").msg))).all
      (fun a => !a.isCreatePresentation) = true :=
  pres_request_approve_invalid_record ⟨"thid-1", "pres-1", none⟩ [exPresProposalSent] []
    (fun r _ => Except.ok (r, (MsgBody.engineMessage "presentation").msg))
    (Or.inr ⟨exPresProposalSent, rfl, by decide⟩)

/-- C2: a credential-offer-accept command whose referenced record exists,
in any state (no state hypothesis appears below), and whose connection is
retrievable makes the handler invoke the request-creation operation of the
protocol engine, dispatch the returned credential request message on the
connection of the record, and reply with credential-request-sent. -/
theorem cred_offer_accept_any_state (msg : CredOfferAccept)
    (credStore : List CredExRecord) (conns : List ConnRecord)
    (create_request : CredExRecord → String → CredExRecord × Message)
    (record : CredExRecord) (conn_record : ConnRecord)
    (hrec : CredExRecord.retrieve_by_id credStore msg.credential_exchange_id
      = some record)
    (hconn : get_connection conns record.connection_id = Except.ok conn_record) :
    CredOfferAccept.handle msg credStore conns create_request =
      Except.ok
        [Action.createRequest record conn_record.my_did,
         Action.send (create_request record conn_record.my_did).2
           record.connection_id,
         Action.sendReply
           (MsgBody.credRequestSent (create_request record conn_record.my_did).1).msg] := by
  simp only [CredOfferAccept.handle, hrec, hconn]

/-- Concrete credential exchange record already past the offer stage. -/
def exCredAcked : CredExRecord :=
  { credential_exchange_id := "cred-9", connection_id := "conn-1",
    state := "credential_acked" }

/-- Concrete ready connection. -/
def exConnReady : ConnRecord :=
  { connection_id := "conn-1", is_ready := true, my_did := "did:me" }

/-- Concrete request-creation collaborator: moves the record to
request_sent and returns an engine credential request message. -/
def exCreateRequest : CredExRecord → String → CredExRecord × Message :=
  fun record _ =>
    ({ record with state := CredExRecord.STATE_REQUEST_SENT },
     (MsgBody.engineMessage "credential-request").msg)

/-- C2 witness: accepting an offer on a record in state credential_acked
(not offer-received) still succeeds, dispatching the request and replying
with credential-request-sent: no state precondition. -/
theorem cred_offer_accept_any_state_witness :
    CredOfferAccept.handle ⟨"thid-2", "cred-9"⟩ [exCredAcked] [exConnReady]
        exCreateRequest =
      Except.ok
        [Action.createRequest exCredAcked "did:me",
         Action.send (MsgBody.engineMessage "credential-request").msg "conn-1",
         Action.sendReply
           (MsgBody.credRequestSent
             { credential_exchange_id := "cred-9", connection_id := "conn-1",
               state := "request_sent" }).msg] :=
  cred_offer_accept_any_state ⟨"thid-2", "cred-9"⟩ [exCredAcked] [exConnReady]
    exCreateRequest exCredAcked exConnReady rfl rfl

/-- C4: a credential exchange lifecycle event is forwarded as a
credential-offer-received notification to every admin session when the
record state is offer-received, as a credential-received notification when
the state is credential-received, and is dropped (no admin notification)
in every other state. -/
theorem credential_event_forwarding (record : CredExRecord)
    (sessions : List String) :
    (record.state = CredExRecord.STATE_OFFER_RECEIVED →
      issue_credential_event_handler record =
        [Action.sendToAdmins (MsgBody.credOfferRecv record).msg] ∧
      ∀ s ∈ sessions,
        (s, (MsgBody.credOfferRecv record).msg) ∈
          send_to_admins sessions (MsgBody.credOfferRecv record).msg) ∧
    (record.state = CredExRecord.STATE_CREDENTIAL_RECEIVED →
      issue_credential_event_handler record =
        [Action.sendToAdmins (MsgBody.credReceived record).msg] ∧
      ∀ s ∈ sessions,
        (s, (MsgBody.credReceived record).msg) ∈
          send_to_admins sessions (MsgBody.credReceived record).msg) ∧
    (record.state ≠ CredExRecord.STATE_OFFER_RECEIVED →
      record.state ≠ CredExRecord.STATE_CREDENTIAL_RECEIVED →
      issue_credential_event_handler record = []) := by
  refine ⟨fun h => ⟨?_, fun s hs => ?_⟩, fun h => ⟨?_, fun s hs => ?_⟩,
    fun h1 h2 => ?_⟩
  · simp [issue_credential_event_handler, h]
  · exact List.mem_map_of_mem _ hs
  · have hd : CredExRecord.STATE_CREDENTIAL_RECEIVED ≠
        CredExRecord.STATE_OFFER_RECEIVED := by decide
    simp [issue_credential_event_handler, h, hd]
  · exact List.mem_map_of_mem _ hs
  · simp [issue_credential_event_handler, h1, h2]

/-- Concrete credential exchange record in state offer_received. -/
def exCredOffer : CredExRecord :=
  { credential_exchange_id := "cred-2", connection_id := "conn-2",
    state := "offer_received" }

/-- C4 witness: an offer-received event produces exactly the
credential-offer-received admin broadcast. -/
theorem credential_event_forwarding_witness :
    issue_credential_event_handler exCredOffer =
      [Action.sendToAdmins (MsgBody.credOfferRecv exCredOffer).msg] :=
  ((credential_event_forwarding exCredOffer ["admin-1", "admin-2"]).1 rfl).1

/-- C5: a presentation exchange lifecycle event is forwarded to admin
sessions only when the record state is request-received, and the
notification carries the matching credentials obtained from the holder
store for the embedded proof request, queried from start 0 with page size
10; every admin session receives a copy. -/
theorem presentation_event_forwarding (record : PresExRecord)
    (holder_get : String → Nat → Nat → List Credential)
    (sessions : List String) :
    (record.state = PresExRecord.STATE_REQUEST_RECEIVED →
      present_proof_event_handler record holder_get =
        [Action.sendToAdmins
          (MsgBody.presRequestReceived record
            (holder_get record.presentation_request 0 10)
            (some { count_ := 10, offset := 10 })).msg] ∧
      ∀ s ∈ sessions,
        (s, (MsgBody.presRequestReceived record
              (holder_get record.presentation_request 0 10)
              (some { count_ := 10, offset := 10 })).msg) ∈
          send_to_admins sessions
            (MsgBody.presRequestReceived record
              (holder_get record.presentation_request 0 10)
              (some { count_ := 10, offset := 10 })).msg) ∧
    (record.state ≠ PresExRecord.STATE_REQUEST_RECEIVED →
      present_proof_event_handler record holder_get = []) := by
  refine ⟨fun h => ⟨?_, fun s hs => ?_⟩, fun h => ?_⟩
  · simp [present_proof_event_handler, h,
      PresRequestReceived.retrieve_matching_credentials,
      PresRequestReceived.DEFAULT_COUNT]
  · exact List.mem_map_of_mem _ hs
  · simp [present_proof_event_handler, h]

/-- Concrete presentation exchange record in state request_received. -/
def exPresReqReceived : PresExRecord :=
  { presentation_exchange_id := "pres-2", connection_id := "conn-3",
    state := "request_received", role := "prover", verified := none,
    presentation_request := "proof-req-2" }

/-- C5 witness: a request-received event with a holder store returning two
credentials produces the enriched broadcast. -/
theorem presentation_event_forwarding_witness :
    present_proof_event_handler exPresReqReceived
        (fun _ _ _ => ["cred-a", "cred-b"]) =
      [Action.sendToAdmins
        (MsgBody.presRequestReceived exPresReqReceived ["cred-a", "cred-b"]
          (some { count_ := 10, offset := 10 })).msg] :=
  ((presentation_event_forwarding exPresReqReceived
      (fun _ _ _ => ["cred-a", "cred-b"]) ["admin-1"]).1 rfl).1

/-- C6: send-credential-proposal against a missing connection replies with
a thread-correlated Problem Report carrying who_retries none and performs
nothing else (no record creation, no dispatch); against a connection that
is not ready, likewise; against a ready connection it creates the proposal
record, dispatches a credential-proposal message on that connection, and
replies with a thread-correlated credential-exchange message. -/
theorem send_cred_proposal_behavior (msg : SendCredProposal)
    (conns : List ConnRecord)
    (create_proposal : String → Option String → String → CredExRecord) :
    (ConnRecord.retrieve_by_id conns msg.connection_id = none →
      SendCredProposal.handle msg conns create_proposal =
        [Action.sendReply
          { body := MsgBody.problemReport "Connection not found." "none",
            thread := some msg.threadId }]) ∧
    (∀ conn_record,
      ConnRecord.retrieve_by_id conns msg.connection_id = some conn_record →
      conn_record.is_ready = false →
      SendCredProposal.handle msg conns create_proposal =
        [Action.sendReply
          { body := MsgBody.problemReport "Connection invalid." "none",
            thread := some msg.threadId }]) ∧
    (∀ conn_record,
      ConnRecord.retrieve_by_id conns msg.connection_id = some conn_record →
      conn_record.is_ready = true →
      SendCredProposal.handle msg conns create_proposal =
        [Action.createProposal msg.connection_id msg.comment msg.cred_def_id,
         Action.send (MsgBody.credentialProposal msg.comment msg.cred_def_id).msg
           msg.connection_id,
         Action.sendReply
           { body := MsgBody.credExchange
               (create_proposal msg.connection_id msg.comment msg.cred_def_id),
             thread := some msg.threadId }]) := by
  refine ⟨fun h => ?_, fun c hc hr => ?_, fun c hc hr => ?_⟩
  · simp [SendCredProposal.handle, h, MsgBody.msg, Message.assign_thread_from]
  · simp [SendCredProposal.handle, hc, hr, MsgBody.msg, Message.assign_thread_from]
  · simp [SendCredProposal.handle, hc, hr, MsgBody.msg, Message.assign_thread_from]

/-- Concrete proposal-creation collaborator. -/
def exCreateProposal : String → Option String → String → CredExRecord :=
  fun connection_id _ _ =>
    { credential_exchange_id := "ce-1", connection_id := connection_id,
      state := CredExRecord.STATE_PROPOSAL_SENT }

/-- C6 witness: a ready connection yields record creation, proposal
dispatch on the connection, and a thread-correlated credential-exchange
reply. -/
theorem send_cred_proposal_behavior_witness :
    SendCredProposal.handle ⟨"thid-3", "conn-1", "cd-1", none⟩ [exConnReady]
        exCreateProposal =
      [Action.createProposal "conn-1" none "cd-1",
       Action.send (MsgBody.credentialProposal none "cd-1").msg "conn-1",
       Action.sendReply
         { body := MsgBody.credExchange
             { credential_exchange_id := "ce-1", connection_id := "conn-1",
               state := "proposal_sent" },
           thread := some "thid-3" }] :=
  (send_cred_proposal_behavior ⟨"thid-3", "conn-1", "cd-1", none⟩ [exConnReady]
    exCreateProposal).2.2 exConnReady rfl rfl

/-- C7: credentials-get-list with a non-empty states filter replies with
the paginated image of exactly those queried records whose state is in the
requested set, kept in the order the query returned them (List.filter is
order-preserving); the filtered list is a sublist of the query result (so
the records in the reply are the stored records themselves, unmutated),
members of the filtered list are exactly the state-matching records, and
an empty filtered result yields an empty slice in a normal reply, not an
error. -/
theorem cred_get_list_states_filter (msg : CredGetList)
    (store : List CredExRecord) (ss : List String)
    (hss : msg.states = some ss) (hne : ss.isEmpty = false) :
    CredGetList.handle msg store =
      (msg.paginate.apply (store.filter (fun c => ss.contains c.state))).map
        (fun sp => [Action.sendReply (MsgBody.credList sp.1 sp.2).msg]) ∧
    List.Sublist (store.filter (fun c => ss.contains c.state)) store ∧
    (∀ c ∈ store.filter (fun c => ss.contains c.state), c.state ∈ ss) ∧
    (∀ c ∈ store, c.state ∈ ss →
      c ∈ store.filter (fun c => ss.contains c.state)) ∧
    (0 < msg.paginate.limit →
      store.filter (fun c => ss.contains c.state) = [] →
      CredGetList.handle msg store =
        Except.ok
          [Action.sendReply
            (MsgBody.credList []
              { count_ := 0, offset := msg.paginate.offset }).msg]) := by
  refine ⟨?_, List.filter_sublist store, fun c hc => ?_, fun c hc hsc => ?_,
    fun hl hF => ?_⟩
  · unfold CredGetList.handle
    rw [hss]
    simp only [hne, Bool.false_eq_true, if_false]
    cases h : msg.paginate.apply (store.filter (fun c => ss.contains c.state)) with
    | error e => simp [h, Except.map]
    | ok v => simp [h, Except.map]
  · have := (List.mem_filter.mp hc).2
    simpa using this
  · exact List.mem_filter.mpr ⟨hc, by simpa using hsc⟩
  · unfold CredGetList.handle
    rw [hss]
    simp only [hne, Bool.false_eq_true, if_false]
    rw [hF, Paginate.apply_pos _ _ hl]
    simp

/-- Concrete message asking for offer_received credentials, default
pagination. -/
def exCredGetList : CredGetList :=
  { threadId := "thid-4", paginate := { limit := 10, offset := 0 },
    states := some ["offer_received"] }

/-- C7 witness: over a store holding one offer_received and one acked
record, the reply lists exactly the offer_received one. -/
theorem cred_get_list_states_filter_witness :
    CredGetList.handle exCredGetList [exCredOffer, exCredAcked] =
      Except.ok
        [Action.sendReply
          (MsgBody.credList [exCredOffer] { count_ := 1, offset := 0 }).msg] :=
  (cred_get_list_states_filter exCredGetList [exCredOffer, exCredAcked]
    ["offer_received"] rfl rfl).1

/-- An action either is not an admin reply or is a reply whose thread
decorator names the given request thread. -/
def replyThreadedB (threadId : String) : Action → Bool
  | Action.sendReply m => m.thread == some threadId
  | _ => true

/-- An admin reply whose body is a credential-request-sent message. -/
def Action.isCredRequestSentReply : Action → Bool
  | Action.sendReply { body := MsgBody.credRequestSent _, thread := _ } => true
  | _ => false

/-- Actions of a completed handler run; a run ending in an uncaught error
performed none of the listed actions in this embedding. -/
def okActions : Except String (List Action) → List Action
  | .ok actions => actions
  | .error _ => []

/-- Concrete credential exchange record in state offer_received on the
ready connection. -/
def exCredOfferConn1 : CredExRecord :=
  { credential_exchange_id := "cred-1", connection_id := "conn-1",
    state := "offer_received" }

/-- C8 counterexample: running credential-offer-accept on an existing
record with a ready connection, the credential-request-sent reply is
emitted with an empty thread decorator (the source never calls
assign_thread_from on it), so it is not correlated to the request thread
thid-1: the claim that every listed reply is thread-correlated fails at
this input. -/
theorem cred_request_sent_reply_lacks_thread :
    CredOfferAccept.handle ⟨"thid-1", "cred-1"⟩ [exCredOfferConn1] [exConnReady]
        exCreateRequest =
      Except.ok
        [Action.createRequest exCredOfferConn1 "did:me",
         Action.send (MsgBody.engineMessage "credential-request").msg "conn-1",
         Action.sendReply
           { body := MsgBody.credRequestSent
               { credential_exchange_id := "cred-1", connection_id := "conn-1",
                 state := "request_sent" },
             thread := none }] ∧
    (none : Option String) ≠ some "thid-1" :=
  ⟨rfl, by decide⟩

/-- C8 amended: every reply emitted by the command handlers that produce
credential-exchange, presentation-exchange, presentation-sent or Problem
Report replies is thread-correlated to its triggering request; the one
exception is the credential-request-sent reply of credential-offer-accept,
which carries no thread correlation (excluded below via
isCredRequestSentReply and exhibited in the counterexample). -/
theorem replies_thread_correlated_except_request_sent
    (msg1 : SendCredProposal) (conns : List ConnRecord)
    (create_proposal : String → Option String → String → CredExRecord)
    (msg2 : PresRequestApprove) (presStore : List PresExRecord)
    (create_presentation :
      PresExRecord → Option String → Except String (PresExRecord × Message))
    (msg3 : SendPresProposal) (dbg : Bool)
    (create_exchange_for_proposal : String → Bool → PresExRecord)
    (msg4 : CredOfferAccept) (credStore : List CredExRecord)
    (create_request : CredExRecord → String → CredExRecord × Message) :
    (SendCredProposal.handle msg1 conns create_proposal).all
      (replyThreadedB msg1.threadId) = true ∧
    (PresRequestApprove.handle msg2 presStore conns create_presentation).all
      (replyThreadedB msg2.threadId) = true ∧
    (SendPresProposal.handle msg3 conns dbg create_exchange_for_proposal).all
      (replyThreadedB msg3.threadId) = true ∧
    ((okActions (CredOfferAccept.handle msg4 credStore conns
        create_request)).filter (fun a => !a.isCredRequestSentReply)).all
      (replyThreadedB msg4.threadId) = true := by
  refine ⟨?_, ?_, ?_, ?_⟩
  · cases h : ConnRecord.retrieve_by_id conns msg1.connection_id with
    | none =>
        simp [SendCredProposal.handle, h, replyThreadedB, MsgBody.msg,
          Message.assign_thread_from]
    | some c =>
        cases hr : c.is_ready <;>
          simp [SendCredProposal.handle, h, hr, replyThreadedB, MsgBody.msg,
            Message.assign_thread_from]
  · cases h : PresRequestApprove.get_pres_ex_record presStore
        msg2.presentation_exchange_id with
    | error e =>
        simp [PresRequestApprove.handle, h, reportError, replyThreadedB,
          MsgBody.msg, Message.assign_thread_from]
    | ok r =>
        cases hc : get_connection conns r.connection_id with
        | error e =>
            simp [PresRequestApprove.handle, h, hc, reportError, replyThreadedB,
              MsgBody.msg, Message.assign_thread_from]
        | ok conn =>
            cases hp : create_presentation r msg2.comment with
            | error e =>
                simp [PresRequestApprove.handle, h, hc, hp, reportError,
                  replyThreadedB, MsgBody.msg, Message.assign_thread_from]
            | ok pm =>
                simp [PresRequestApprove.handle, h, hc, hp, replyThreadedB,
                  MsgBody.msg, Message.assign_thread_from]
  · cases h : get_connection conns msg3.connection_id with
    | error e =>
        simp [SendPresProposal.handle, h, reportError, replyThreadedB,
          MsgBody.msg, Message.assign_thread_from]
    | ok c =>
        simp [SendPresProposal.handle, h, replyThreadedB, MsgBody.msg,
          Message.assign_thread_from]
  · cases h : CredExRecord.retrieve_by_id credStore
        msg4.credential_exchange_id with
    | none =>
        simp [CredOfferAccept.handle, h, okActions, reportError, replyThreadedB,
          Action.isCredRequestSentReply, MsgBody.msg, Message.assign_thread_from]
    | some r =>
        cases hc : get_connection conns r.connection_id with
        | error e => simp [CredOfferAccept.handle, h, hc, okActions]
        | ok conn =>
            simp [CredOfferAccept.handle, h, hc, okActions, replyThreadedB,
              Action.isCredRequestSentReply, MsgBody.msg]

/-- C9 counterexample: the registered family is missing two of the fifteen
names of the external-interface list: neither presentation-request-received
nor presentation-sent appears among the registered type strings, though
both classes exist in the module. -/
theorem registry_missing_presentation_types :
    ((MESSAGE_TYPES.map Prod.fst).contains
      (qualified PresRequestReceived.message_type) = false) ∧
    ((MESSAGE_TYPES.map Prod.fst).contains
      (qualified PresSent.message_type) = false) := by
  constructor <;> rfl

/-- C9 amended: the registry holds exactly thirteen entries: every family
name except presentation-request-received and presentation-sent is
registered under the protocol namespace and version. -/
theorem registry_thirteen_of_fifteen :
    (familyTypeNames.filter (fun t =>
        t != PresRequestReceived.message_type &&
        t != PresSent.message_type)).all
      (fun t => (MESSAGE_TYPES.map Prod.fst).contains (qualified t)) = true ∧
    MESSAGE_TYPES.length = 13 ∧
    familyTypeNames.length = 15 := by
  refine ⟨rfl, rfl, rfl⟩

/-- C10: the enrichment step always attaches Page(count 10, offset 10) to
the presentation-request-received notification, whatever list the holder
store returns and although the store is queried from start 0: the page
fields reflect neither the size nor the starting offset of the enclosed
matching-credential list. -/
theorem pres_request_page_constant (record : PresExRecord)
    (holder_get : String → Nat → Nat → List Credential)
    (m : PresRequestReceivedMsg) :
    (record.state = PresExRecord.STATE_REQUEST_RECEIVED →
      present_proof_event_handler record holder_get =
        [Action.sendToAdmins
          (MsgBody.presRequestReceived record
            (holder_get record.presentation_request 0 10)
            (some { count_ := 10, offset := 10 })).msg]) ∧
    (PresRequestReceived.retrieve_matching_credentials holder_get m).page =
      some { count_ := 10, offset := 10 } ∧
    (PresRequestReceived.retrieve_matching_credentials holder_get m).matching_credentials =
      holder_get m.record.presentation_request 0 10 := by
  refine ⟨fun h => ?_, ?_, ?_⟩
  · simp [present_proof_event_handler, h,
      PresRequestReceived.retrieve_matching_credentials,
      PresRequestReceived.DEFAULT_COUNT]
  · simp [PresRequestReceived.retrieve_matching_credentials,
      PresRequestReceived.DEFAULT_COUNT]
  · simp [PresRequestReceived.retrieve_matching_credentials,
      PresRequestReceived.DEFAULT_COUNT]

/-- C10 witness: with a holder store returning a single credential, the
broadcast still reports page count 10 and offset 10. -/
theorem pres_request_page_constant_witness :
    present_proof_event_handler exPresReqReceived (fun _ _ _ => ["only-cred"]) =
      [Action.sendToAdmins
        (MsgBody.presRequestReceived exPresReqReceived ["only-cred"]
          (some { count_ := 10, offset := 10 })).msg] :=
  (pres_request_page_constant exPresReqReceived (fun _ _ _ => ["only-cred"])
    { record := exPresReqReceived, matching_credentials := [], page := none }).1 rfl

end HolderV01
